import Mathlib

/-!
Shallow embedding of the job-orchestration core of the `backend` repository
(FastAPI + Celery MRI super-resolution service), together with theorems
checking the specification's claims about it.

Embedded source files:
- `app/models.py` / `app/models/job.py` — the `JobStatus` enum and `Job` row.
- `app/repositories/job_repository.py` — `get_by_user_and_id`, `update_progress`.
- `app/services/job_service.py` — `JobService` operations.
- `app/tasks/preprocess_tasks.py`, `app/tasks/inference_tasks.py` — the
  worker-side `update_job_status` reporters.
- `app/api/routes/jobs.py` (`trigger_job`), `app/api/routes/preprocess.py`
  (`upload_and_preprocess` dispatch), `app/api/routes/inference.py`
  (`run_inference`).

The database is modelled as a list of `Job` rows; SQLAlchemy queries become
list lookups; `datetime.utcnow()` becomes an explicit `now : Nat` argument;
Python truthiness of optional strings / lists / dicts is modelled by the
`optStrTruthy` / `optListTruthy` helpers (None and the empty value are falsy).
-/

namespace MriBackend

/-- The `JobStatus` enum from `app/models.py`. -/
inductive JobStatus where
  | pending
  | processing
  | completed
  | failed
deriving DecidableEq, Repr

/-- The `.value` of the Python `str` enum member. -/
def JobStatus.value : JobStatus → String
  | .pending => "pending"
  | .processing => "processing"
  | .completed => "completed"
  | .failed => "failed"

/-- The `User` row from `app/models.py` (fields relevant to job ownership). -/
structure User where
  id : String
  email : String
  name : String
deriving DecidableEq, Repr

/-- One entry of a job's JSON `input_files` / `output_files` column: the
preprocess pipeline stores `{lr, hr}` pairs, the inference pipeline stores
plain path strings; uploads store plain path strings. -/
inductive FileEntry where
  | path (p : String)
  | pair (hr : String) (lr : String)
deriving DecidableEq, Repr

/-- The JSON `metrics` column (name/value pairs; values are kept abstract here). -/
abbrev Metrics := List (String × String)

/-- The `Job` row from `app/models.py` / `app/models/job.py`.  Timestamps are
modelled as `Option Nat` (None ↔ SQL NULL). -/
structure Job where
  id : String
  user_id : String
  status : JobStatus
  progress : Int
  job_type : String
  error_message : Option String
  input_files : Option (List FileEntry)
  output_files : Option (List FileEntry)
  lr_file_url : Option String
  hr_file_url : Option String
  metrics : Option Metrics
  created_at : Nat
  started_at : Option Nat
  completed_at : Option Nat
deriving DecidableEq, Repr

/-- Python truthiness of an optional string: `None` and `""` are falsy. -/
def optStrTruthy : Option String → Bool
  | none => false
  | some s => !s.isEmpty

/-- Python truthiness of an optional list/dict: `None` and `[]` are falsy. -/
def optListTruthy {α : Type} : Option (List α) → Bool
  | none => false
  | some l => !l.isEmpty

/-- Exceptions from `app/utils/exceptions.py` that the embedded code raises
(`ResourceNotFoundException`, `ForbiddenException`, `InvalidJobStateException`). -/
inductive AppError where
  | resourceNotFound (resource : String) (identifier : String)
  | forbidden (detail : String)
  | invalidJobState (detail : String)
deriving DecidableEq, Repr

/-- Messages from `app/core/constants.py` used by the embedded code. -/
def ErrorMessages.PREPROCESSING_NOT_COMPLETE : String :=
  "Preprocessing must be completed before running inference"

def ErrorMessages.NO_INPUT_FILES : String := "No input files found"

/-- The jobs table: a list of rows. -/
abbrev DB := List Job

/-- Embeds `BaseRepository.get_by_id` specialised to jobs:
`db.query(Job).filter(Job.id == job_id).first()`. -/
def DB.get_by_id (db : DB) (job_id : String) : Option Job :=
  db.find? (fun j => j.id == job_id)

/-- Committing an updated row: every row with the same primary key is
replaced by the new value. -/
def DB.update (db : DB) (job : Job) : DB :=
  db.map (fun j => if j.id == job.id then job else j)

/-! ### Per-statement record updates shared by the status updaters

Each helper models one Python statement of the `update_job_status` bodies:
an unconditional assignment, a truthiness-guarded assignment, or the
timestamp `if/elif` block (service vs. worker variant). -/

/-- Python statement `job.status = status`. -/
def Job.setStatus (j : Job) (st : JobStatus) : Job := { j with status := st }

/-- Python statement `if progress is not None: job.progress = progress`. -/
def Job.setProgressOpt (j : Job) (p : Option Int) : Job :=
  match p with
  | some p => { j with progress := p }
  | none => j

/-- Python statement `if error_message: job.error_message = error_message`. -/
def Job.setErrorMessageIf (j : Job) (em : Option String) : Job :=
  if optStrTruthy em then { j with error_message := em } else j

/-- Python statement `if output_files: job.output_files = output_files`. -/
def Job.setOutputFilesIf (j : Job) (ofs : Option (List FileEntry)) : Job :=
  if optListTruthy ofs then { j with output_files := ofs } else j

/-- Python statement `if lr_file_url: job.lr_file_url = lr_file_url`. -/
def Job.setLrFileUrlIf (j : Job) (u : Option String) : Job :=
  if optStrTruthy u then { j with lr_file_url := u } else j

/-- Python statement `if hr_file_url: job.hr_file_url = hr_file_url`. -/
def Job.setHrFileUrlIf (j : Job) (u : Option String) : Job :=
  if optStrTruthy u then { j with hr_file_url := u } else j

/-- Python statement `if metrics: job.metrics = metrics`. -/
def Job.setMetricsIf (j : Job) (m : Option Metrics) : Job :=
  if optListTruthy m then { j with metrics := m } else j

/-- The timestamp block of `JobService.update_job_status` (lines 172–175):
`started_at` on first entry into PROCESSING, else `completed_at` on any
COMPLETED or FAILED update. -/
def Job.serviceTimestamps (j : Job) (st : JobStatus) (now : Nat) : Job :=
  if st = JobStatus.processing ∧ j.started_at = none then
    { j with started_at := some now }
  else if st = JobStatus.completed ∨ st = JobStatus.failed then
    { j with completed_at := some now }
  else j

/-- The timestamp block of the worker-side `update_job_status` (both task
modules, e.g. `preprocess_tasks.py` lines 53–57): `started_at` on first
entry into PROCESSING; `completed_at` and the forced `progress = 100` only
on COMPLETED — a FAILED update touches neither timestamp. -/
def Job.workerTimestamps (j : Job) (st : JobStatus) (now : Nat) : Job :=
  if st = JobStatus.processing ∧ j.started_at = none then
    { j with started_at := some now }
  else if st = JobStatus.completed then
    { j with completed_at := some now, progress := 100 }
  else j

namespace JobRepository

/-- Embeds `JobRepository.get_by_user_and_id`: `filter(Job.id == job_id,
Job.user_id == user_id).first()` — the lookup itself filters by owner. -/
def get_by_user_and_id (db : DB) (user_id : String) (job_id : String) : Option Job :=
  db.find? (fun j => j.id == job_id && j.user_id == user_id)

/-- Embeds `JobRepository.update_progress`: sets `job.progress = progress`
unconditionally and persists. -/
def update_progress (job : Job) (progress : Int) : Job :=
  { job with progress := progress }

end JobRepository

namespace JobService

/-- The field updates `JobService.update_job_status` performs on the loaded
row (source lines 168–184): set the status, then the timestamp rules, then
the optional fields guarded by Python truthiness. -/
def applyStatusUpdate (job : Job) (status : JobStatus) (error_message : Option String)
    (output_files : Option (List FileEntry)) (metrics : Option Metrics) (now : Nat) : Job :=
  ((((job.setStatus status).serviceTimestamps status now).setErrorMessageIf
    error_message).setOutputFilesIf output_files).setMetricsIf metrics

/-- Embeds `JobService.update_job_status`: load by id, raise
`ResourceNotFoundException` when absent, otherwise apply the field updates
and persist. -/
def update_job_status (db : DB) (job_id : String) (status : JobStatus)
    (error_message : Option String) (output_files : Option (List FileEntry))
    (metrics : Option Metrics) (now : Nat) : Except AppError (DB × Job) :=
  match DB.get_by_id db job_id with
  | none => .error (.resourceNotFound "Job" job_id)
  | some job =>
    let j := applyStatusUpdate job status error_message output_files metrics now
    .ok (DB.update db j, j)

/-- Embeds `JobService.get_job_by_id`: owner-filtered lookup; a missing row (which
includes every row owned by a different user) raises
`ResourceNotFoundException`. -/
def get_job_by_id (db : DB) (job_id : String) (user : User) : Except AppError Job :=
  match JobRepository.get_by_user_and_id db user.id job_id with
  | none => .error (.resourceNotFound "Job" job_id)
  | some job => .ok job

/-- Embeds `JobService.update_job_progress`: load by id, raise
`ResourceNotFoundException` when absent, otherwise store the given value via
`JobRepository.update_progress`. -/
def update_job_progress (db : DB) (job_id : String) (progress : Int) :
    Except AppError (DB × Job) :=
  match DB.get_by_id db job_id with
  | none => .error (.resourceNotFound "Job" job_id)
  | some job =>
    let j := JobRepository.update_progress job progress
    .ok (DB.update db j, j)

/-- Embeds `JobService.delete_job`: ownership-checked lookup, then delete the row.
(The associated `FileService.delete_job_files` call touches the file store,
which is outside the jobs table modelled here.) -/
def delete_job (db : DB) (job_id : String) (user : User) : Except AppError DB :=
  match get_job_by_id db job_id user with
  | .error e => .error e
  | .ok job => .ok (db.filter (fun j => !(j.id == job.id)))

/-- Embeds `JobService.validate_job_for_inference` (source lines 260–273). -/
def validate_job_for_inference (db : DB) (job_id : String) (user : User) :
    Except AppError Job :=
  match get_job_by_id db job_id user with
  | .error e => .error e
  | .ok job =>
    if job.status ≠ JobStatus.completed then
      .error (.invalidJobState ErrorMessages.PREPROCESSING_NOT_COMPLETE)
    else if !(optListTruthy job.output_files) then
      .error (.invalidJobState "No output files available from preprocessing")
    else
      .ok job

/-- Embeds `JobService.can_trigger_job`: `job.status == JobStatus.PENDING`. -/
def can_trigger_job (job : Job) : Bool :=
  job.status = JobStatus.pending

/-- Embeds `JobService.create_job`: a fresh pending row (the generated uuid is an
explicit argument; `created_at` comes from the DB default). -/
def create_job (user : User) (new_id : String) (job_type : String)
    (input_files : Option (List FileEntry)) (now : Nat) : Job :=
  { id := new_id
    user_id := user.id
    status := JobStatus.pending
    progress := 0
    job_type := job_type
    error_message := none
    input_files := input_files
    output_files := none
    lr_file_url := none
    hr_file_url := none
    metrics := none
    created_at := now
    started_at := none
    completed_at := none }

end JobService

namespace PreprocessTasks

/-- Field updates of the worker-side `update_job_status` in
`app/tasks/preprocess_tasks.py` (lines 40–57): set the status, apply the
optional fields (`progress` guarded by `is not None`, the rest by Python
truthiness), then the timestamp rules — `completed_at` (and the forced
`progress = 100`) only on `COMPLETED`, never on `FAILED`. -/
def applyStatusUpdate (job : Job) (status : JobStatus) (progress : Option Int)
    (error_message : Option String) (output_files : Option (List FileEntry))
    (lr_file_url : Option String) (hr_file_url : Option String) (now : Nat) : Job :=
  ((((((job.setStatus status).setProgressOpt progress).setErrorMessageIf
    error_message).setOutputFilesIf output_files).setLrFileUrlIf
    lr_file_url).setHrFileUrlIf hr_file_url).workerTimestamps status now

/-- Worker-side `update_job_status` of `app/tasks/preprocess_tasks.py`:
`db.query(Job).filter(Job.id == job_id).first()`, then `if job:` — a missing
row makes the whole call a silent no-op (no exception is raised). -/
def update_job_status (db : DB) (job_id : String) (status : JobStatus)
    (progress : Option Int) (error_message : Option String)
    (output_files : Option (List FileEntry)) (lr_file_url : Option String)
    (hr_file_url : Option String) (now : Nat) : DB :=
  match DB.get_by_id db job_id with
  | none => db
  | some job =>
    DB.update db (applyStatusUpdate job status progress error_message output_files
      lr_file_url hr_file_url now)

end PreprocessTasks

namespace InferenceTasks

/-- Field updates of the worker-side `update_job_status` in
`app/tasks/inference_tasks.py` (lines 33–50); same shape as the preprocess
reporter but with `hr_file_url`/`metrics` optional fields. -/
def applyStatusUpdate (job : Job) (status : JobStatus) (progress : Option Int)
    (error_message : Option String) (output_files : Option (List FileEntry))
    (hr_file_url : Option String) (metrics : Option Metrics) (now : Nat) : Job :=
  ((((((job.setStatus status).setProgressOpt progress).setErrorMessageIf
    error_message).setOutputFilesIf output_files).setHrFileUrlIf
    hr_file_url).setMetricsIf metrics).workerTimestamps status now

/-- Worker-side `update_job_status` of `app/tasks/inference_tasks.py`:
no-op (no exception) when no row matches `job_id`. -/
def update_job_status (db : DB) (job_id : String) (status : JobStatus)
    (progress : Option Int) (error_message : Option String)
    (output_files : Option (List FileEntry)) (hr_file_url : Option String)
    (metrics : Option Metrics) (now : Nat) : DB :=
  match DB.get_by_id db job_id with
  | none => db
  | some job =>
    DB.update db (applyStatusUpdate job status progress error_message output_files
      hr_file_url metrics now)

end InferenceTasks

/-- The Celery task a dispatch message targets, with the `args` the callers
pass (`[job_id, files]`). -/
inductive TaskPayload where
  | preprocess_pipeline_task (job_id : String) (file_paths : Option (List FileEntry))
  | inference_task (job_id : String) (input_files : Option (List FileEntry))
deriving DecidableEq, Repr

/-- One `apply_async` publication: the payload, the Celery `task_id` (the
transport-level deduplication/idempotency key) and the optional queue. -/
structure DispatchMessage where
  payload : TaskPayload
  task_id : String
  queue : Option String
deriving DecidableEq, Repr

/-- Embeds `JobService.trigger_celery_task`:
`task_function.apply_async(args=args, task_id=job.id, queue=queue)`. -/
def JobService.trigger_celery_task (job : Job) (payload : TaskPayload)
    (queue : String) : DispatchMessage :=
  { payload := payload, task_id := job.id, queue := some queue }

/-- The JSON body `trigger_job` returns: each branch returns `message` and
`job_id`, plus `current_status` (already-running branch) or `job_type`
(dispatch branches). -/
structure TriggerResult where
  message : String
  job_id : String
  current_status : Option String
  job_type : Option String
deriving DecidableEq, Repr

/-- The `trigger_job` route of `app/api/routes/jobs.py` (lines 113–180):
ownership-checked lookup; non-pending jobs get an informational body and no
dispatch; pending jobs need truthy `input_files`; then dispatch by
`job_type`, with an "Unknown job type" body (and no dispatch) otherwise.
The route never writes the jobs table, so the input `db` is returned
unchanged, together with the response body and the list of published
messages. -/
def trigger_job (db : DB) (job_id : String) (user : User) :
    Except AppError (DB × TriggerResult × List DispatchMessage) :=
  match JobService.get_job_by_id db job_id user with
  | .error e => .error e
  | .ok job =>
  if !(JobService.can_trigger_job job) then
    .ok (db,
      { message := "Job is already " ++ job.status.value
        job_id := job_id
        current_status := some job.status.value
        job_type := none }, [])
  else if !(optListTruthy job.input_files) then
    .error (.invalidJobState ErrorMessages.NO_INPUT_FILES)
  else if job.job_type == "preprocess" then
    let msg := JobService.trigger_celery_task job
      (.preprocess_pipeline_task job_id job.input_files) "preprocessing"
    .ok (db,
      { message := "Preprocessing task triggered"
        job_id := job_id
        current_status := none
        job_type := some "preprocess" }, [msg])
  else if job.job_type == "inference" then
    let msg := JobService.trigger_celery_task job
      (.inference_task job_id job.input_files) "inference"
    .ok (db,
      { message := "Inference task triggered"
        job_id := job_id
        current_status := none
        job_type := some "inference" }, [msg])
  else
    .ok (db,
      { message := "Unknown job type: " ++ job.job_type
        job_id := job_id
        current_status := none
        job_type := none }, [])

/-- The job-creation and dispatch part of `upload_and_preprocess` in
`app/api/routes/preprocess.py`: create a pending `preprocess` job under the
fresh uuid `job_id`, store the saved `file_paths` as its `input_files`, and
publish `preprocess_pipeline_task.apply_async(args=[job_id, file_paths],
task_id=job_id)` (no explicit queue). File saving and `File` rows live
outside the jobs table modelled here. -/
def upload_and_preprocess (db : DB) (user : User) (job_id : String)
    (file_paths : List String) (now : Nat) : DB × DispatchMessage :=
  let entries := file_paths.map FileEntry.path
  let job := JobService.create_job user job_id "preprocess" (some entries) now
  (db ++ [job],
    { payload := .preprocess_pipeline_task job_id (some entries)
      task_id := job_id
      queue := none })

/-- The `run_inference` route of `app/api/routes/inference.py`: validate the
source job for inference, create the inference job (its `input_files` are
the source job's `output_files`), and dispatch `inference_task` on the
`inference` queue via `JobService.trigger_celery_task`. -/
def run_inference (db : DB) (user : User) (lr_file_id : String)
    (new_job_id : String) (now : Nat) :
    Except AppError (DB × Job × DispatchMessage) :=
  match JobService.validate_job_for_inference db lr_file_id user with
  | .error e => .error e
  | .ok lr_job =>
    let inference_job := JobService.create_job user new_job_id "inference"
      lr_job.output_files now
    let msg := JobService.trigger_celery_task inference_job
      (.inference_task inference_job.id lr_job.output_files) "inference"
    .ok (db ++ [inference_job], inference_job, msg)

/-! ### Concrete fixtures used by counterexamples and witnesses -/

def alice : User := { id := "alice", email := "alice@x.io", name := "Alice" }

def bob : User := { id := "bob", email := "bob@x.io", name := "Bob" }

/-- A freshly created pending preprocess job owned by alice. -/
def baseJob : Job :=
  { id := "j1"
    user_id := "alice"
    status := JobStatus.pending
    progress := 0
    job_type := "preprocess"
    error_message := none
    input_files := none
    output_files := none
    lr_file_url := none
    hr_file_url := none
    metrics := none
    created_at := 0
    started_at := none
    completed_at := none }

/-- A preprocess job that finished successfully: completed with paired
outputs. -/
def jobCompletedOut : Job :=
  { baseJob with
    status := JobStatus.completed
    progress := 100
    output_files := some [FileEntry.pair "hr_0.nii.gz" "lr_0.nii.gz"]
    started_at := some 1
    completed_at := some 2 }

/-- A job mid-execution: processing at 50 percent. -/
def jobProcessing : Job :=
  { baseJob with status := JobStatus.processing, progress := 50, started_at := some 1 }

/-- A pending preprocess job with one uploaded input file. -/
def jobPendingPre : Job :=
  { baseJob with input_files := some [FileEntry.path "a.nii"] }

/-- A pending job with input files but an unrecognised `job_type`. -/
def jobPendingOdd : Job :=
  { baseJob with job_type := "training", input_files := some [FileEntry.path "a.nii"] }

/-- An inference job mid-execution with no outputs recorded yet. -/
def jobInferNoOut : Job :=
  { baseJob with
    job_type := "inference"
    status := JobStatus.processing
    started_at := some 1
    input_files := some [FileEntry.path "lr_0.nii.gz"] }

/-- The message `trigger_job` publishes for `jobPendingPre`. -/
def preprocTriggerMsg : DispatchMessage :=
  { payload := TaskPayload.preprocess_pipeline_task "j1" (some [FileEntry.path "a.nii"])
    task_id := "j1"
    queue := some "preprocessing" }

/-- The response body `trigger_job` returns for `jobPendingPre`. -/
def preprocTriggerResult : TriggerResult :=
  { message := "Preprocessing task triggered"
    job_id := "j1"
    current_status := none
    job_type := some "preprocess" }

/-! ### Field behaviour of the three status-update bodies -/

theorem Job.setStatus_status (j : Job) (st : JobStatus) : (j.setStatus st).status = st := rfl

theorem Job.setStatus_id (j : Job) (st : JobStatus) : (j.setStatus st).id = j.id := rfl

theorem Job.setStatus_progress (j : Job) (st : JobStatus) :
    (j.setStatus st).progress = j.progress := rfl

theorem Job.setStatus_output_files (j : Job) (st : JobStatus) :
    (j.setStatus st).output_files = j.output_files := rfl

theorem Job.setStatus_started_at (j : Job) (st : JobStatus) :
    (j.setStatus st).started_at = j.started_at := rfl

theorem Job.setStatus_completed_at (j : Job) (st : JobStatus) :
    (j.setStatus st).completed_at = j.completed_at := rfl

theorem Job.setProgressOpt_status (j : Job) (p : Option Int) :
    (j.setProgressOpt p).status = j.status := by cases p <;> rfl

theorem Job.setProgressOpt_id (j : Job) (p : Option Int) :
    (j.setProgressOpt p).id = j.id := by cases p <;> rfl

theorem Job.setProgressOpt_output_files (j : Job) (p : Option Int) :
    (j.setProgressOpt p).output_files = j.output_files := by cases p <;> rfl

theorem Job.setProgressOpt_started_at (j : Job) (p : Option Int) :
    (j.setProgressOpt p).started_at = j.started_at := by cases p <;> rfl

theorem Job.setProgressOpt_completed_at (j : Job) (p : Option Int) :
    (j.setProgressOpt p).completed_at = j.completed_at := by cases p <;> rfl

theorem Job.setErrorMessageIf_status (j : Job) (em : Option String) :
    (j.setErrorMessageIf em).status = j.status := by
  unfold Job.setErrorMessageIf; split_ifs <;> rfl

theorem Job.setErrorMessageIf_id (j : Job) (em : Option String) :
    (j.setErrorMessageIf em).id = j.id := by
  unfold Job.setErrorMessageIf; split_ifs <;> rfl

theorem Job.setErrorMessageIf_progress (j : Job) (em : Option String) :
    (j.setErrorMessageIf em).progress = j.progress := by
  unfold Job.setErrorMessageIf; split_ifs <;> rfl

theorem Job.setErrorMessageIf_output_files (j : Job) (em : Option String) :
    (j.setErrorMessageIf em).output_files = j.output_files := by
  unfold Job.setErrorMessageIf; split_ifs <;> rfl

theorem Job.setErrorMessageIf_started_at (j : Job) (em : Option String) :
    (j.setErrorMessageIf em).started_at = j.started_at := by
  unfold Job.setErrorMessageIf; split_ifs <;> rfl

theorem Job.setErrorMessageIf_completed_at (j : Job) (em : Option String) :
    (j.setErrorMessageIf em).completed_at = j.completed_at := by
  unfold Job.setErrorMessageIf; split_ifs <;> rfl

theorem Job.setOutputFilesIf_status (j : Job) (ofs : Option (List FileEntry)) :
    (j.setOutputFilesIf ofs).status = j.status := by
  unfold Job.setOutputFilesIf; split_ifs <;> rfl

theorem Job.setOutputFilesIf_id (j : Job) (ofs : Option (List FileEntry)) :
    (j.setOutputFilesIf ofs).id = j.id := by
  unfold Job.setOutputFilesIf; split_ifs <;> rfl

theorem Job.setOutputFilesIf_progress (j : Job) (ofs : Option (List FileEntry)) :
    (j.setOutputFilesIf ofs).progress = j.progress := by
  unfold Job.setOutputFilesIf; split_ifs <;> rfl

theorem Job.setOutputFilesIf_output_files (j : Job) (ofs : Option (List FileEntry)) :
    (j.setOutputFilesIf ofs).output_files =
      if optListTruthy ofs then ofs else j.output_files := by
  unfold Job.setOutputFilesIf; split_ifs <;> rfl

theorem Job.setOutputFilesIf_started_at (j : Job) (ofs : Option (List FileEntry)) :
    (j.setOutputFilesIf ofs).started_at = j.started_at := by
  unfold Job.setOutputFilesIf; split_ifs <;> rfl

theorem Job.setOutputFilesIf_completed_at (j : Job) (ofs : Option (List FileEntry)) :
    (j.setOutputFilesIf ofs).completed_at = j.completed_at := by
  unfold Job.setOutputFilesIf; split_ifs <;> rfl

theorem Job.setLrFileUrlIf_status (j : Job) (u : Option String) :
    (j.setLrFileUrlIf u).status = j.status := by
  unfold Job.setLrFileUrlIf; split_ifs <;> rfl

theorem Job.setLrFileUrlIf_id (j : Job) (u : Option String) :
    (j.setLrFileUrlIf u).id = j.id := by
  unfold Job.setLrFileUrlIf; split_ifs <;> rfl

theorem Job.setLrFileUrlIf_progress (j : Job) (u : Option String) :
    (j.setLrFileUrlIf u).progress = j.progress := by
  unfold Job.setLrFileUrlIf; split_ifs <;> rfl

theorem Job.setLrFileUrlIf_output_files (j : Job) (u : Option String) :
    (j.setLrFileUrlIf u).output_files = j.output_files := by
  unfold Job.setLrFileUrlIf; split_ifs <;> rfl

theorem Job.setLrFileUrlIf_started_at (j : Job) (u : Option String) :
    (j.setLrFileUrlIf u).started_at = j.started_at := by
  unfold Job.setLrFileUrlIf; split_ifs <;> rfl

theorem Job.setLrFileUrlIf_completed_at (j : Job) (u : Option String) :
    (j.setLrFileUrlIf u).completed_at = j.completed_at := by
  unfold Job.setLrFileUrlIf; split_ifs <;> rfl

theorem Job.setHrFileUrlIf_status (j : Job) (u : Option String) :
    (j.setHrFileUrlIf u).status = j.status := by
  unfold Job.setHrFileUrlIf; split_ifs <;> rfl

theorem Job.setHrFileUrlIf_id (j : Job) (u : Option String) :
    (j.setHrFileUrlIf u).id = j.id := by
  unfold Job.setHrFileUrlIf; split_ifs <;> rfl

theorem Job.setHrFileUrlIf_progress (j : Job) (u : Option String) :
    (j.setHrFileUrlIf u).progress = j.progress := by
  unfold Job.setHrFileUrlIf; split_ifs <;> rfl

theorem Job.setHrFileUrlIf_output_files (j : Job) (u : Option String) :
    (j.setHrFileUrlIf u).output_files = j.output_files := by
  unfold Job.setHrFileUrlIf; split_ifs <;> rfl

theorem Job.setHrFileUrlIf_started_at (j : Job) (u : Option String) :
    (j.setHrFileUrlIf u).started_at = j.started_at := by
  unfold Job.setHrFileUrlIf; split_ifs <;> rfl

theorem Job.setHrFileUrlIf_completed_at (j : Job) (u : Option String) :
    (j.setHrFileUrlIf u).completed_at = j.completed_at := by
  unfold Job.setHrFileUrlIf; split_ifs <;> rfl

theorem Job.setMetricsIf_status (j : Job) (m : Option Metrics) :
    (j.setMetricsIf m).status = j.status := by
  unfold Job.setMetricsIf; split_ifs <;> rfl

theorem Job.setMetricsIf_id (j : Job) (m : Option Metrics) :
    (j.setMetricsIf m).id = j.id := by
  unfold Job.setMetricsIf; split_ifs <;> rfl

theorem Job.setMetricsIf_progress (j : Job) (m : Option Metrics) :
    (j.setMetricsIf m).progress = j.progress := by
  unfold Job.setMetricsIf; split_ifs <;> rfl

theorem Job.setMetricsIf_output_files (j : Job) (m : Option Metrics) :
    (j.setMetricsIf m).output_files = j.output_files := by
  unfold Job.setMetricsIf; split_ifs <;> rfl

theorem Job.setMetricsIf_started_at (j : Job) (m : Option Metrics) :
    (j.setMetricsIf m).started_at = j.started_at := by
  unfold Job.setMetricsIf; split_ifs <;> rfl

theorem Job.setMetricsIf_completed_at (j : Job) (m : Option Metrics) :
    (j.setMetricsIf m).completed_at = j.completed_at := by
  unfold Job.setMetricsIf; split_ifs <;> rfl

theorem Job.serviceTimestamps_status (j : Job) (st : JobStatus) (now : Nat) :
    (j.serviceTimestamps st now).status = j.status := by
  unfold Job.serviceTimestamps; split_ifs <;> rfl

theorem Job.serviceTimestamps_id (j : Job) (st : JobStatus) (now : Nat) :
    (j.serviceTimestamps st now).id = j.id := by
  unfold Job.serviceTimestamps; split_ifs <;> rfl

theorem Job.serviceTimestamps_progress (j : Job) (st : JobStatus) (now : Nat) :
    (j.serviceTimestamps st now).progress = j.progress := by
  unfold Job.serviceTimestamps; split_ifs <;> rfl

theorem Job.serviceTimestamps_output_files (j : Job) (st : JobStatus) (now : Nat) :
    (j.serviceTimestamps st now).output_files = j.output_files := by
  unfold Job.serviceTimestamps; split_ifs <;> rfl

theorem Job.serviceTimestamps_started_at (j : Job) (st : JobStatus) (now : Nat) :
    (j.serviceTimestamps st now).started_at =
      if st = JobStatus.processing ∧ j.started_at = none then some now
      else j.started_at := by
  unfold Job.serviceTimestamps; split_ifs <;> rfl

theorem Job.serviceTimestamps_completed_at (j : Job) (st : JobStatus) (now : Nat) :
    (j.serviceTimestamps st now).completed_at =
      if st = JobStatus.processing ∧ j.started_at = none then j.completed_at
      else if st = JobStatus.completed ∨ st = JobStatus.failed then some now
      else j.completed_at := by
  unfold Job.serviceTimestamps; split_ifs <;> rfl

theorem Job.workerTimestamps_status (j : Job) (st : JobStatus) (now : Nat) :
    (j.workerTimestamps st now).status = j.status := by
  unfold Job.workerTimestamps; split_ifs <;> rfl

theorem Job.workerTimestamps_id (j : Job) (st : JobStatus) (now : Nat) :
    (j.workerTimestamps st now).id = j.id := by
  unfold Job.workerTimestamps; split_ifs <;> rfl

theorem Job.workerTimestamps_output_files (j : Job) (st : JobStatus) (now : Nat) :
    (j.workerTimestamps st now).output_files = j.output_files := by
  unfold Job.workerTimestamps; split_ifs <;> rfl

theorem Job.workerTimestamps_started_at (j : Job) (st : JobStatus) (now : Nat) :
    (j.workerTimestamps st now).started_at =
      if st = JobStatus.processing ∧ j.started_at = none then some now
      else j.started_at := by
  unfold Job.workerTimestamps; split_ifs <;> rfl

theorem Job.workerTimestamps_completed_at (j : Job) (st : JobStatus) (now : Nat) :
    (j.workerTimestamps st now).completed_at =
      if st = JobStatus.processing ∧ j.started_at = none then j.completed_at
      else if st = JobStatus.completed then some now
      else j.completed_at := by
  unfold Job.workerTimestamps; split_ifs <;> rfl

theorem Job.workerTimestamps_progress (j : Job) (st : JobStatus) (now : Nat) :
    (j.workerTimestamps st now).progress =
      if st = JobStatus.processing ∧ j.started_at = none then j.progress
      else if st = JobStatus.completed then 100
      else j.progress := by
  unfold Job.workerTimestamps; split_ifs <;> rfl

theorem svcApplyStatus_status (job : Job) (st : JobStatus)
    (em : Option String) (ofs : Option (List FileEntry)) (mets : Option Metrics)
    (now : Nat) :
    (JobService.applyStatusUpdate job st em ofs mets now).status = st := by
  simp [JobService.applyStatusUpdate, Job.setMetricsIf_status, Job.setOutputFilesIf_status,
    Job.setErrorMessageIf_status, Job.serviceTimestamps_status, Job.setStatus_status]

theorem svcApplyStatus_started_at (job : Job) (st : JobStatus)
    (em : Option String) (ofs : Option (List FileEntry)) (mets : Option Metrics)
    (now : Nat) :
    (JobService.applyStatusUpdate job st em ofs mets now).started_at =
      if st = JobStatus.processing ∧ job.started_at = none then some now
      else job.started_at := by
  simp only [JobService.applyStatusUpdate, Job.setMetricsIf_started_at,
    Job.setOutputFilesIf_started_at, Job.setErrorMessageIf_started_at,
    Job.serviceTimestamps_started_at, Job.setStatus_started_at]

theorem svcApplyStatus_completed_at (job : Job) (st : JobStatus)
    (em : Option String) (ofs : Option (List FileEntry)) (mets : Option Metrics)
    (now : Nat) :
    (JobService.applyStatusUpdate job st em ofs mets now).completed_at =
      if st = JobStatus.processing ∧ job.started_at = none then job.completed_at
      else if st = JobStatus.completed ∨ st = JobStatus.failed then some now
      else job.completed_at := by
  simp only [JobService.applyStatusUpdate, Job.setMetricsIf_completed_at,
    Job.setOutputFilesIf_completed_at, Job.setErrorMessageIf_completed_at,
    Job.serviceTimestamps_completed_at, Job.setStatus_started_at,
    Job.setStatus_completed_at]

theorem svcApplyStatus_output_files (job : Job) (st : JobStatus)
    (em : Option String) (ofs : Option (List FileEntry)) (mets : Option Metrics)
    (now : Nat) :
    (JobService.applyStatusUpdate job st em ofs mets now).output_files =
      if optListTruthy ofs then ofs else job.output_files := by
  simp only [JobService.applyStatusUpdate, Job.setMetricsIf_output_files,
    Job.setOutputFilesIf_output_files, Job.setErrorMessageIf_output_files,
    Job.serviceTimestamps_output_files, Job.setStatus_output_files]

theorem preApplyStatus_status (job : Job) (st : JobStatus)
    (p : Option Int) (em : Option String) (ofs : Option (List FileEntry))
    (lr hr : Option String) (now : Nat) :
    (PreprocessTasks.applyStatusUpdate job st p em ofs lr hr now).status = st := by
  simp only [PreprocessTasks.applyStatusUpdate, Job.workerTimestamps_status,
    Job.setHrFileUrlIf_status, Job.setLrFileUrlIf_status, Job.setOutputFilesIf_status,
    Job.setErrorMessageIf_status, Job.setProgressOpt_status, Job.setStatus_status]

theorem preApplyStatus_started_at (job : Job) (st : JobStatus)
    (p : Option Int) (em : Option String) (ofs : Option (List FileEntry))
    (lr hr : Option String) (now : Nat) :
    (PreprocessTasks.applyStatusUpdate job st p em ofs lr hr now).started_at =
      if st = JobStatus.processing ∧ job.started_at = none then some now
      else job.started_at := by
  simp only [PreprocessTasks.applyStatusUpdate, Job.workerTimestamps_started_at,
    Job.setHrFileUrlIf_started_at, Job.setLrFileUrlIf_started_at,
    Job.setOutputFilesIf_started_at, Job.setErrorMessageIf_started_at,
    Job.setProgressOpt_started_at, Job.setStatus_started_at]

theorem preApplyStatus_completed_at (job : Job) (st : JobStatus)
    (p : Option Int) (em : Option String) (ofs : Option (List FileEntry))
    (lr hr : Option String) (now : Nat) :
    (PreprocessTasks.applyStatusUpdate job st p em ofs lr hr now).completed_at =
      if st = JobStatus.processing ∧ job.started_at = none then job.completed_at
      else if st = JobStatus.completed then some now
      else job.completed_at := by
  simp only [PreprocessTasks.applyStatusUpdate, Job.workerTimestamps_completed_at,
    Job.setHrFileUrlIf_completed_at, Job.setLrFileUrlIf_completed_at,
    Job.setOutputFilesIf_completed_at, Job.setErrorMessageIf_completed_at,
    Job.setProgressOpt_completed_at, Job.setStatus_completed_at,
    Job.setHrFileUrlIf_started_at, Job.setLrFileUrlIf_started_at,
    Job.setOutputFilesIf_started_at, Job.setErrorMessageIf_started_at,
    Job.setProgressOpt_started_at, Job.setStatus_started_at]

theorem preApplyStatus_output_files (job : Job) (st : JobStatus)
    (p : Option Int) (em : Option String) (ofs : Option (List FileEntry))
    (lr hr : Option String) (now : Nat) :
    (PreprocessTasks.applyStatusUpdate job st p em ofs lr hr now).output_files =
      if optListTruthy ofs then ofs else job.output_files := by
  simp only [PreprocessTasks.applyStatusUpdate, Job.workerTimestamps_output_files,
    Job.setHrFileUrlIf_output_files, Job.setLrFileUrlIf_output_files,
    Job.setOutputFilesIf_output_files, Job.setErrorMessageIf_output_files,
    Job.setProgressOpt_output_files, Job.setStatus_output_files]

theorem preApplyStatus_progress_completed (job : Job)
    (p : Option Int) (em : Option String) (ofs : Option (List FileEntry))
    (lr hr : Option String) (now : Nat) :
    (PreprocessTasks.applyStatusUpdate job JobStatus.completed p em ofs lr hr now).progress
      = 100 := by
  simp [PreprocessTasks.applyStatusUpdate, Job.workerTimestamps_progress,
    Job.setHrFileUrlIf_started_at, Job.setLrFileUrlIf_started_at,
    Job.setOutputFilesIf_started_at, Job.setErrorMessageIf_started_at,
    Job.setProgressOpt_started_at, Job.setStatus_started_at]

theorem infApplyStatus_status (job : Job) (st : JobStatus)
    (p : Option Int) (em : Option String) (ofs : Option (List FileEntry))
    (hr : Option String) (mets : Option Metrics) (now : Nat) :
    (InferenceTasks.applyStatusUpdate job st p em ofs hr mets now).status = st := by
  simp only [InferenceTasks.applyStatusUpdate, Job.workerTimestamps_status,
    Job.setMetricsIf_status, Job.setHrFileUrlIf_status, Job.setOutputFilesIf_status,
    Job.setErrorMessageIf_status, Job.setProgressOpt_status, Job.setStatus_status]

theorem infApplyStatus_completed_at (job : Job) (st : JobStatus)
    (p : Option Int) (em : Option String) (ofs : Option (List FileEntry))
    (hr : Option String) (mets : Option Metrics) (now : Nat) :
    (InferenceTasks.applyStatusUpdate job st p em ofs hr mets now).completed_at =
      if st = JobStatus.processing ∧ job.started_at = none then job.completed_at
      else if st = JobStatus.completed then some now
      else job.completed_at := by
  simp only [InferenceTasks.applyStatusUpdate, Job.workerTimestamps_completed_at,
    Job.setMetricsIf_completed_at, Job.setHrFileUrlIf_completed_at,
    Job.setOutputFilesIf_completed_at, Job.setErrorMessageIf_completed_at,
    Job.setProgressOpt_completed_at, Job.setStatus_completed_at,
    Job.setMetricsIf_started_at, Job.setHrFileUrlIf_started_at,
    Job.setOutputFilesIf_started_at, Job.setErrorMessageIf_started_at,
    Job.setProgressOpt_started_at, Job.setStatus_started_at]

theorem infApplyStatus_output_files (job : Job) (st : JobStatus)
    (p : Option Int) (em : Option String) (ofs : Option (List FileEntry))
    (hr : Option String) (mets : Option Metrics) (now : Nat) :
    (InferenceTasks.applyStatusUpdate job st p em ofs hr mets now).output_files =
      if optListTruthy ofs then ofs else job.output_files := by
  simp only [InferenceTasks.applyStatusUpdate, Job.workerTimestamps_output_files,
    Job.setMetricsIf_output_files, Job.setHrFileUrlIf_output_files,
    Job.setOutputFilesIf_output_files, Job.setErrorMessageIf_output_files,
    Job.setProgressOpt_output_files, Job.setStatus_output_files]

/-! ### Claim theorems -/

/-- C1 (counterexample): the claim says a status update on a terminal job
fails with InvalidState and leaves the record unchanged.  On a completed job,
a `PROCESSING` update via `JobService.update_job_status` instead succeeds and
moves the status back to `processing`; the worker-side reporter does the
same. -/
theorem C1_terminal_overwrite_counterexample :
    (JobService.update_job_status [jobCompletedOut] "j1" JobStatus.processing none none
        none 5).toOption.map (fun r => r.2.status) = some JobStatus.processing ∧
    (PreprocessTasks.update_job_status [jobCompletedOut] "j1" JobStatus.processing
        (some 0) none none none none 5).map Job.status = [JobStatus.processing] := by
  decide

/-- C1 (amended): neither the service-side `update_job_status` nor the
worker-side reporters guard terminal states: whenever the row exists, the
service call succeeds (no InvalidState) and stores exactly the requested
status, and both worker reporters set the requested status unconditionally —
so `completed`/`failed` can transition to any state. -/
theorem C1_no_terminal_guard (db : DB) (job_id : String) (st : JobStatus)
    (em : Option String) (ofs : Option (List FileEntry)) (mets : Option Metrics)
    (p : Option Int) (lr hr : Option String) (now : Nat) (j : Job)
    (h : DB.get_by_id db job_id = some j) :
    JobService.update_job_status db job_id st em ofs mets now
      = .ok (DB.update db (JobService.applyStatusUpdate j st em ofs mets now),
             JobService.applyStatusUpdate j st em ofs mets now) ∧
    (JobService.applyStatusUpdate j st em ofs mets now).status = st ∧
    (∀ job : Job,
      (PreprocessTasks.applyStatusUpdate job st p em ofs lr hr now).status = st) ∧
    (∀ job : Job,
      (InferenceTasks.applyStatusUpdate job st p em ofs hr mets now).status = st) := by
  refine ⟨?_, svcApplyStatus_status j st em ofs mets now,
    fun job => preApplyStatus_status job st p em ofs lr hr now,
    fun job => infApplyStatus_status job st p em ofs hr mets now⟩
  unfold JobService.update_job_status
  rw [h]

theorem C1_no_terminal_guard_witness :
    DB.get_by_id [jobCompletedOut] "j1" = some jobCompletedOut ∧
    JobService.update_job_status [jobCompletedOut] "j1" JobStatus.processing none none
        none 5
      = .ok (DB.update [jobCompletedOut]
          (JobService.applyStatusUpdate jobCompletedOut JobStatus.processing none none
            none 5),
        JobService.applyStatusUpdate jobCompletedOut JobStatus.processing none none
          none 5) :=
  ⟨by decide,
   (C1_no_terminal_guard [jobCompletedOut] "j1" JobStatus.processing none none none
      none none none 5 jobCompletedOut (by decide)).1⟩

/-- C2 (code bug): a principal operating on a job owned by someone else gets
`ResourceNotFoundException`, not `ForbiddenException`: the owner-filtered
lookup hides foreign jobs, even though the service and route docstrings
document `ForbiddenException` for this case.  Evaluated here at the failing
input: job `j1` is owned by alice and bob calls get / delete / trigger. -/
theorem C2_foreign_job_yields_not_found :
    JobService.get_job_by_id [baseJob] "j1" bob
      = .error (AppError.resourceNotFound "Job" "j1") ∧
    JobService.delete_job [baseJob] "j1" bob
      = .error (AppError.resourceNotFound "Job" "j1") ∧
    trigger_job [baseJob] "j1" bob
      = .error (AppError.resourceNotFound "Job" "j1") :=
  ⟨rfl, rfl, rfl⟩

/-- C3 (counterexample): the claim says `output_files` is non-empty iff the
status is `completed`.  A completion report that carries an empty output list
(exactly what `inference_task` sends when every input file is missing) leaves
the job `completed` with `output_files` still unset. -/
theorem C3_completed_empty_outputs_counterexample :
    (InferenceTasks.update_job_status [jobInferNoOut] "j1" JobStatus.completed
        (some 100) none (some []) (some "/api/files/j1/sr_0.nii.gz") (some []) 7).map
      (fun j => (j.status, j.output_files))
      = [(JobStatus.completed, none)] := by
  decide

/-- C3 (amended): `output_files` changes only when an update supplies a
non-empty list — an update (service or either worker reporter) whose
`output_files` argument is absent or empty leaves the field untouched.
Hence a job can be `completed` with empty `output_files`, and the claimed
equivalence fails in that direction. -/
theorem C3_output_files_only_set_nonempty (job : Job) (st : JobStatus)
    (em : Option String) (ofs : Option (List FileEntry)) (mets : Option Metrics)
    (p : Option Int) (lr hr : Option String) (now : Nat)
    (h : optListTruthy ofs = false) :
    (JobService.applyStatusUpdate job st em ofs mets now).output_files
      = job.output_files ∧
    (PreprocessTasks.applyStatusUpdate job st p em ofs lr hr now).output_files
      = job.output_files ∧
    (InferenceTasks.applyStatusUpdate job st p em ofs hr mets now).output_files
      = job.output_files := by
  refine ⟨?_, ?_, ?_⟩ <;>
    simp [svcApplyStatus_output_files,
      preApplyStatus_output_files,
      infApplyStatus_output_files, h]

theorem C3_output_files_only_set_nonempty_witness :
    optListTruthy (some ([] : List FileEntry)) = false ∧
    (InferenceTasks.applyStatusUpdate jobInferNoOut JobStatus.completed (some 100) none
        (some []) (some "u") (some []) 7).output_files = jobInferNoOut.output_files :=
  ⟨by decide,
   (C3_output_files_only_set_nonempty jobInferNoOut JobStatus.completed none (some [])
      (some []) (some 100) none (some "u") 7 (by decide)).2.2⟩

/-- C7 (counterexample): the claim says a progress value lower than the
stored one is never recorded.  On a processing job at 50, reporting 30 via
`JobService.update_job_progress` succeeds and stores 30. -/
theorem C7_progress_regression_counterexample :
    jobProcessing.progress = 50 ∧
    (JobService.update_job_progress [jobProcessing] "j1" 30).toOption.map
      (fun r => r.2.progress) = some 30 ∧
    (30 : Int) < 50 := by
  decide

/-- C7 (amended): `update_progress` stores exactly the reported value with no
monotonicity check against the previously stored progress, so a lower report
overwrites a higher stored value. -/
theorem C7_progress_overwrite (db : DB) (job_id : String) (p : Int) (j : Job)
    (h : DB.get_by_id db job_id = some j) :
    (∀ job : Job, JobRepository.update_progress job p = { job with progress := p }) ∧
    JobService.update_job_progress db job_id p
      = .ok (DB.update db { j with progress := p }, { j with progress := p }) := by
  refine ⟨fun job => rfl, ?_⟩
  unfold JobService.update_job_progress
  rw [h]
  rfl

theorem C7_progress_overwrite_witness :
    DB.get_by_id [jobProcessing] "j1" = some jobProcessing ∧
    JobService.update_job_progress [jobProcessing] "j1" 30
      = .ok (DB.update [jobProcessing] { jobProcessing with progress := 30 },
             { jobProcessing with progress := 30 }) :=
  ⟨by decide, (C7_progress_overwrite [jobProcessing] "j1" 30 jobProcessing (by decide)).2⟩

/-- C8 (counterexample): the claim says a worker-reported
`processing → failed` transition sets `completed_at`.  The worker-side
reporter sets `completed_at` only on COMPLETED: failing a processing job
leaves `completed_at` unset. -/
theorem C8_worker_failed_no_completed_at_counterexample :
    (PreprocessTasks.update_job_status [jobProcessing] "j1" JobStatus.failed none
        (some "boom") none none none 9).map (fun j => (j.status, j.completed_at))
      = [(JobStatus.failed, none)] := by
  decide

/-- C8 (amended): `started_at` is set only at the first entry into
`processing` (an already-set value is kept, in both the service and the
worker updaters).  The service-side `update_job_status` sets
`completed_at = now` on every `completed` or `failed` update (so later
terminal updates overwrite it).  The worker-side reporters set
`completed_at` (and force `progress = 100`) only on `completed`; a
worker-reported failure leaves `completed_at` unchanged. -/
theorem C8_timestamp_rules (job : Job) (em : Option String)
    (ofs : Option (List FileEntry)) (mets : Option Metrics) (p : Option Int)
    (lr hr : Option String) (now : Nat) :
    ((JobService.applyStatusUpdate job JobStatus.processing em ofs mets now).started_at
      = if job.started_at = none then some now else job.started_at) ∧
    ((JobService.applyStatusUpdate job JobStatus.completed em ofs mets now).completed_at
      = some now) ∧
    ((JobService.applyStatusUpdate job JobStatus.failed em ofs mets now).completed_at
      = some now) ∧
    ((PreprocessTasks.applyStatusUpdate job JobStatus.processing p em ofs lr hr
        now).started_at
      = if job.started_at = none then some now else job.started_at) ∧
    ((PreprocessTasks.applyStatusUpdate job JobStatus.completed p em ofs lr hr
        now).completed_at = some now) ∧
    ((PreprocessTasks.applyStatusUpdate job JobStatus.completed p em ofs lr hr
        now).progress = 100) ∧
    ((PreprocessTasks.applyStatusUpdate job JobStatus.failed p em ofs lr hr
        now).completed_at = job.completed_at) ∧
    ((InferenceTasks.applyStatusUpdate job JobStatus.failed p em ofs hr mets
        now).completed_at = job.completed_at) := by
  refine ⟨?_, ?_, ?_, ?_, ?_, ?_, ?_, ?_⟩ <;>
    simp [svcApplyStatus_started_at,
      svcApplyStatus_completed_at,
      preApplyStatus_started_at,
      preApplyStatus_completed_at,
      preApplyStatus_progress_completed,
      infApplyStatus_completed_at]

/-- C9: a worker-side reporter call against a `job_id` with no matching row
is a silent no-op: both task modules return with the table unchanged and no
exception path exists. -/
theorem C9_dangling_report_noop (db : DB) (job_id : String) (st : JobStatus)
    (p : Option Int) (em : Option String) (ofs : Option (List FileEntry))
    (lr hr : Option String) (mets : Option Metrics) (now : Nat)
    (h : DB.get_by_id db job_id = none) :
    PreprocessTasks.update_job_status db job_id st p em ofs lr hr now = db ∧
    InferenceTasks.update_job_status db job_id st p em ofs hr mets now = db := by
  refine ⟨?_, ?_⟩
  · unfold PreprocessTasks.update_job_status
    rw [h]
  · unfold InferenceTasks.update_job_status
    rw [h]

theorem C9_dangling_report_noop_witness :
    DB.get_by_id [baseJob] "missing" = none ∧
    PreprocessTasks.update_job_status [baseJob] "missing" JobStatus.processing (some 10)
      none none none none 3 = [baseJob] :=
  ⟨by decide,
   (C9_dangling_report_noop [baseJob] "missing" JobStatus.processing (some 10) none none
      none none none 3 (by decide)).1⟩

/-- C4: `validate_job_for_inference` on a job the lookup returns for this
user: a non-completed status fails with InvalidJobState carrying the
"preprocessing not complete" message; a completed job with empty
`output_files` fails with InvalidJobState carrying the "no outputs" message;
a completed job with non-empty `output_files` is returned unchanged. -/
theorem C4_validate_job_for_inference_cases (db : DB) (user : User) (job_id : String)
    (j : Job) (h : JobRepository.get_by_user_and_id db user.id job_id = some j) :
    (j.status ≠ JobStatus.completed →
      JobService.validate_job_for_inference db job_id user
        = .error (AppError.invalidJobState ErrorMessages.PREPROCESSING_NOT_COMPLETE)) ∧
    (j.status = JobStatus.completed → optListTruthy j.output_files = false →
      JobService.validate_job_for_inference db job_id user
        = .error (AppError.invalidJobState
            "No output files available from preprocessing")) ∧
    (j.status = JobStatus.completed → optListTruthy j.output_files = true →
      JobService.validate_job_for_inference db job_id user = .ok j) := by
  unfold JobService.validate_job_for_inference JobService.get_job_by_id
  rw [h]
  refine ⟨fun hs => ?_, fun hs ho => ?_, fun hs ho => ?_⟩
  · simp [hs]
  · simp [hs, ho]
  · simp [hs, ho]

theorem C4_validate_job_for_inference_cases_witness :
    JobRepository.get_by_user_and_id [jobCompletedOut] alice.id "j1"
      = some jobCompletedOut ∧
    jobCompletedOut.status = JobStatus.completed ∧
    optListTruthy jobCompletedOut.output_files = true ∧
    JobService.validate_job_for_inference [jobCompletedOut] "j1" alice
      = .ok jobCompletedOut :=
  ⟨by decide, by decide, by decide,
   (C4_validate_job_for_inference_cases [jobCompletedOut] alice "j1" jobCompletedOut
      (by decide)).2.2 (by decide) (by decide)⟩

/-- C5: re-triggering a job whose status is not `pending` (owned by the
requesting user, so the lookup returns it) publishes no dispatch message and
returns — not raises — an informational body naming the current status. -/
theorem C5_retrigger_nonpending_informational (db : DB) (job_id : String) (user : User)
    (j : Job) (h : JobRepository.get_by_user_and_id db user.id job_id = some j)
    (hs : j.status ≠ JobStatus.pending) :
    trigger_job db job_id user
      = .ok (db,
          { message := "Job is already " ++ j.status.value
            job_id := job_id
            current_status := some j.status.value
            job_type := none }, []) := by
  unfold trigger_job JobService.get_job_by_id
  rw [h]
  have hc : JobService.can_trigger_job j = false := by
    simp [JobService.can_trigger_job, hs]
  simp [hc]

theorem C5_retrigger_nonpending_informational_witness :
    JobRepository.get_by_user_and_id [jobProcessing] alice.id "j1" = some jobProcessing ∧
    jobProcessing.status ≠ JobStatus.pending ∧
    trigger_job [jobProcessing] "j1" alice
      = .ok ([jobProcessing],
          { message := "Job is already " ++ jobProcessing.status.value
            job_id := "j1"
            current_status := some jobProcessing.status.value
            job_type := none }, []) :=
  ⟨by decide, by decide,
   C5_retrigger_nonpending_informational [jobProcessing] "j1" alice jobProcessing
     (by decide) (by decide)⟩

/-- C10: re-triggering a pending job with non-empty `input_files` and a
`job_type` that is neither "preprocess" nor "inference" publishes no task,
raises nothing, leaves the table unchanged, and returns a body reporting the
unknown job type. -/
theorem C10_unknown_job_type_noop (db : DB) (job_id : String) (user : User) (j : Job)
    (h : JobRepository.get_by_user_and_id db user.id job_id = some j)
    (hp : j.status = JobStatus.pending)
    (hin : optListTruthy j.input_files = true)
    (ht1 : j.job_type ≠ "preprocess") (ht2 : j.job_type ≠ "inference") :
    trigger_job db job_id user
      = .ok (db,
          { message := "Unknown job type: " ++ j.job_type
            job_id := job_id
            current_status := none
            job_type := none }, []) := by
  unfold trigger_job JobService.get_job_by_id
  rw [h]
  have hc : JobService.can_trigger_job j = true := by
    simp [JobService.can_trigger_job, hp]
  simp [hc, hin, ht1, ht2]

theorem C10_unknown_job_type_noop_witness :
    JobRepository.get_by_user_and_id [jobPendingOdd] alice.id "j1" = some jobPendingOdd ∧
    jobPendingOdd.status = JobStatus.pending ∧
    optListTruthy jobPendingOdd.input_files = true ∧
    jobPendingOdd.job_type = "training" ∧
    trigger_job [jobPendingOdd] "j1" alice
      = .ok ([jobPendingOdd],
          { message := "Unknown job type: " ++ jobPendingOdd.job_type
            job_id := "j1"
            current_status := none
            job_type := none }, []) :=
  ⟨by decide, by decide, by decide, by decide,
   C10_unknown_job_type_noop [jobPendingOdd] "j1" alice jobPendingOdd (by decide)
     (by decide) (by decide) (by decide) (by decide)⟩

/-- C6: every dispatch publication carries `task_id` (the transport
deduplication/idempotency key) equal to the dispatched job's id: the shared
`trigger_celery_task` primitive, the upload route's initial preprocess
dispatch, every message the re-trigger route publishes, and the inference
route's dispatch; hence two dispatches of the same job id carry the same
key. -/
theorem C6_dispatch_dedup_key_eq_job_id :
    (∀ (job : Job) (payload : TaskPayload) (queue : String),
      (JobService.trigger_celery_task job payload queue).task_id = job.id) ∧
    (∀ (db : DB) (user : User) (job_id : String) (fps : List String) (now : Nat),
      ((upload_and_preprocess db user job_id fps now).2).task_id = job_id) ∧
    (∀ (db : DB) (job_id : String) (user : User)
        (out : DB × TriggerResult × List DispatchMessage),
      trigger_job db job_id user = .ok out →
      ∀ m ∈ out.2.2, m.task_id = job_id) ∧
    (∀ (db : DB) (user : User) (lr_file_id new_job_id : String) (now : Nat)
        (out : DB × Job × DispatchMessage),
      run_inference db user lr_file_id new_job_id now = .ok out →
      out.2.2.task_id = out.2.1.id ∧ out.2.1.id = new_job_id) ∧
    (∀ (job : Job) (p1 p2 : TaskPayload) (q1 q2 : String),
      (JobService.trigger_celery_task job p1 q1).task_id
        = (JobService.trigger_celery_task job p2 q2).task_id) := by
  refine ⟨fun job payload queue => rfl, fun db user job_id fps now => rfl, ?_, ?_,
    fun job p1 p2 q1 q2 => rfl⟩
  · intro db job_id user out hout m hm
    unfold trigger_job JobService.get_job_by_id at hout
    cases hfind : JobRepository.get_by_user_and_id db user.id job_id with
    | none =>
      rw [hfind] at hout
      simp at hout
    | some j =>
      rw [hfind] at hout
      have hid : j.id = job_id := by
        unfold JobRepository.get_by_user_and_id at hfind
        have hp := List.find?_some hfind
        simp at hp
        exact hp.1
      simp only [] at hout
      split_ifs at hout <;>
        simp only [Except.ok.injEq] at hout <;>
          subst hout <;>
            simp [JobService.trigger_celery_task, hid] at hm ⊢ <;>
              simp [hm]
  · intro db user lr_file_id new_job_id now out hout
    unfold run_inference at hout
    cases hval : JobService.validate_job_for_inference db lr_file_id user with
    | error e =>
      rw [hval] at hout
      simp at hout
    | ok lr_job =>
      rw [hval] at hout
      simp only [Except.ok.injEq] at hout
      subst hout
      exact ⟨rfl, rfl⟩

theorem C6_dispatch_dedup_key_eq_job_id_witness :
    (JobService.trigger_celery_task jobPendingPre
      (TaskPayload.preprocess_pipeline_task "j1" jobPendingPre.input_files)
      "preprocessing").task_id = jobPendingPre.id ∧
    ((upload_and_preprocess [] alice "j9" ["a.nii"] 0).2).task_id = "j9" ∧
    trigger_job [jobPendingPre] "j1" alice
      = .ok ([jobPendingPre], preprocTriggerResult, [preprocTriggerMsg]) ∧
    preprocTriggerMsg.task_id = "j1" :=
  ⟨C6_dispatch_dedup_key_eq_job_id.1 jobPendingPre
     (TaskPayload.preprocess_pipeline_task "j1" jobPendingPre.input_files) "preprocessing",
   C6_dispatch_dedup_key_eq_job_id.2.1 [] alice "j9" ["a.nii"] 0,
   rfl,
   C6_dispatch_dedup_key_eq_job_id.2.2.1 [jobPendingPre] "j1" alice
     ([jobPendingPre], preprocTriggerResult, [preprocTriggerMsg]) rfl
     preprocTriggerMsg (by simp)⟩

end MriBackend
